import Mathlib

/-!
Verification of the browser-side document-intelligence orchestrator
(app/static/js/main.js): text extraction from PDF page streams, the three
analysis operations (quick insights, full analysis, podcast generation),
their length-threshold gates, response-field fallback policies, and the
module-level session state.

Strings are modelled as Lean `String` (lists of characters); JavaScript
`s.substring(0, n)`, `s.trim()`, and falsy-`||` defaulting are given
explicit character-level models below. Backend requests are modelled as
oracle values of type `Except Unit α` (a resolved response or a thrown
transport/parse error); each driver function returns a record of the
requests it issued together with what it displayed, so that "no request
is sent" is a provable statement about the returned trace.
-/

/-- Model of JavaScript `s.substring(0, n)`: the first `n` characters of `s`
(all of `s` when it is shorter). -/
def jsSubstringTo (s : String) (n : Nat) : String :=
  ⟨s.data.take n⟩

/-- Model of JavaScript `s.trim()`: remove whitespace from both ends. -/
def jsTrim (s : String) : String :=
  ⟨((s.data.dropWhile Char.isWhitespace).reverse.dropWhile Char.isWhitespace).reverse⟩

/-- Model of JavaScript `a || b` where `a` is a possibly-absent string field:
`null`/`undefined` and the empty string are falsy and fall through to `b`. -/
def jsOrString (a : Option String) (b : String) : String :=
  match a with
  | none => b
  | some s => if s.isEmpty then b else s

/-- Model of JavaScript `a || [fallback]` where `a` is a possibly-absent array
field: `null`/`undefined` fall through; an array (even empty) is truthy and
kept unchanged. -/
def jsOrList (a : Option (List String)) (fallback : List String) : List String :=
  match a with
  | none => fallback
  | some l => l

/-- A PDF document as seen through the pdf.js API: each page yields a list of
text-item fragments (the `item.str` values of `getTextContent().items`). -/
structure PDFDoc where
  pages : List (List String)

/-- One page's contribution to the accumulated text: the page's fragments
joined with a single space, followed by the blank-line separator, exactly as
`textContent.items.map(item => item.str).join(' ')` plus `'\n\n'`. -/
def pageSegment (p : List String) : String :=
  String.intercalate " " p ++ "\n\n"

/-- The page loop of `extractSampleTextFromPDF`: append each page's segment;
after each append, if the accumulator exceeds 1000 characters, truncate to the
first 1000 characters, append the ellipsis marker, and stop (the `break`).
Returns the accumulated text, the number of pages read, and the truncation
flag. -/
def sampleLoop : List (List String) → String → Nat → String × Nat × Bool
  | [], acc, n => (acc, n, false)
  | p :: rest, acc, n =>
    let acc2 := acc ++ pageSegment p
    if acc2.length > 1000 then
      (jsSubstringTo acc2 1000 ++ "...", n + 1, true)
    else
      sampleLoop rest acc2 (n + 1)

/-- Instrumented run of Sample-mode extraction on a successfully opened
document: the loop ranges over the first `min(numPages, 3)` pages. -/
def extractSampleRun (pdf : PDFDoc) : String × Nat × Bool :=
  sampleLoop (pdf.pages.take (min pdf.pages.length 3)) "" 0

/-- `extractSampleTextFromPDF`: Sample-mode extraction. On any failure while
opening or reading the document the error is caught and a fixed placeholder
sentence is returned; on success the loop's accumulated text is trimmed. -/
def extractSampleTextFromPDF (pdfResult : Except Unit PDFDoc) : String :=
  match pdfResult with
  | .error _ => "Document content analysis for quick insights."
  | .ok pdf => jsTrim (extractSampleRun pdf).1

/-- The page loop of `extractTextFromPDF`: append every page's segment, no
character-count check. Returns the accumulated text and pages read. -/
def fullLoop : List (List String) → String → Nat → String × Nat
  | [], acc, n => (acc, n)
  | p :: rest, acc, n => fullLoop rest (acc ++ pageSegment p) (n + 1)

/-- Instrumented run of Full-mode extraction on a successfully opened
document: the loop ranges over the first `min(numPages, 10)` pages. -/
def extractFullRun (pdf : PDFDoc) : String × Nat :=
  fullLoop (pdf.pages.take (min pdf.pages.length 10)) "" 0

/-- `extractTextFromPDF`: Full-mode extraction. On any failure the error is
caught and a fixed placeholder sentence is returned; on success the loop's
accumulated text is trimmed. -/
def extractTextFromPDF (pdfResult : Except Unit PDFDoc) : String :=
  match pdfResult with
  | .error _ => "Document content analysis. This PDF contains valuable information for review."
  | .ok pdf => jsTrim (extractFullRun pdf).1

/-- The `insights` object of a backend insights response: four independently
optional array fields. -/
structure InsightsObj where
  key_insights : Option (List String)
  did_you_know : Option (List String)
  counterpoints : Option (List String)
  connections : Option (List String)

/-- A backend insights response; the whole `insights` object itself may be
absent or null. -/
structure InsightsResponse where
  insights : Option InsightsObj

/-- The four lists rendered by `displayInsights` when the `insights` object is
present. -/
structure InsightDisplay where
  keyInsights : List String
  didYouKnow : List String
  counterpoints : List String
  connections : List String
deriving DecidableEq

/-- What `displayInsights` writes into the insights container: either the
"No insights generated" message or the four insight sections. -/
inductive DisplayModel where
  | noInsights
  | bundle (d : InsightDisplay)
deriving DecidableEq

/-- Whether a display model carries the four-field insight bundle. -/
def DisplayModel.hasBundle : DisplayModel → Bool
  | .noInsights => false
  | .bundle _ => true

/-- `displayInsights`: if the response has no `insights` object the container
shows the "No insights generated" message; otherwise each of the four fields
falls back to its fixed one-element placeholder when absent or null. -/
def displayInsights (r : InsightsResponse) : DisplayModel :=
  match r.insights with
  | none => .noInsights
  | some obj =>
    .bundle
      { keyInsights := jsOrList obj.key_insights ["No key insights available"]
        didYouKnow := jsOrList obj.did_you_know ["No additional facts available"]
        counterpoints := jsOrList obj.counterpoints ["No counterpoints available"]
        connections := jsOrList obj.connections ["No connections available"] }

/-- `showQuickInsights`: the quick-insights modal renders only key insights and
quick facts; optional chaining makes a missing `insights` object fall through
to the same placeholders as missing fields. -/
def showQuickInsights (r : InsightsResponse) : List String × List String :=
  (jsOrList (r.insights.bind (·.key_insights)) ["No key insights available"],
   jsOrList (r.insights.bind (·.did_you_know)) ["No additional facts available"])

/-- A related-section entry of the backend response: the section text, with
page (inside `meta`) and score optional in the wire payload. -/
structure RelatedSection where
  text : String
  page : Option Int
  score : Option Float

/-- One rendered related-section card: page label, preview text, score label. -/
structure RelatedRender where
  pageLabel : String
  preview : String
  scoreLabel : String

/-- Rendering of one related-section card in `showRelatedSections`. `fmt`
abstracts the platform number formatting `score.toFixed(2)` (always a
non-empty string for a present number); a missing score renders "0.00", a
missing page (or falsy page 0) renders "N/A", and the preview is the section
text cut to its first 100 characters followed by "...". -/
def renderRelatedSection (fmt : Float → String) (s : RelatedSection) : RelatedRender :=
  { pageLabel :=
      match s.page with
      | none => "N/A"
      | some p => if p = 0 then "N/A" else toString p
    preview := jsSubstringTo s.text 100 ++ "..."
    scoreLabel :=
      match s.score with
      | none => "0.00"
      | some v => let t := fmt v; if t.isEmpty then "0.00" else t }

/-- What the related-sections container shows: the rendered cards, or the
"No related sections found" message for an empty result list. -/
inductive RelatedDisplay where
  | sections (cards : List RelatedRender)
  | noneFound

/-- A backend request issued by one of the drivers, with its payload. -/
inductive Request where
  | insight (payload : String)
  | related (text : String) (k : Nat)
  | podcast (payload : String)
deriving DecidableEq

/-- Trace of one `showRelatedSections` call: the requests it issued, what it
put in the related container (none when it returned early or the request
failed), and whether it reported the failure warning. -/
structure RelatedRun where
  requests : List Request
  display : Option RelatedDisplay
  warning : Bool

/-- `showRelatedSections`: returns immediately on empty text; otherwise issues
the related request with the given text and fixed k = 5; a failure is caught
and logged as a warning (the insights already on screen are untouched). -/
def showRelatedSections (text : String)
    (relatedResult : Except Unit (List RelatedSection))
    (fmt : Float → String) : RelatedRun :=
  if text.isEmpty then
    { requests := [], display := none, warning := false }
  else
    match relatedResult with
    | .error _ =>
      { requests := [.related text 5], display := none, warning := true }
    | .ok secs =>
      { requests := [.related text 5]
        display := some (if secs.isEmpty then .noneFound
          else .sections (secs.map (renderRelatedSection fmt)))
        warning := false }

/-- Trace of one `quickAnalyzeDocument` call. `insufficient` is the early
return behind the "Could not extract enough text" alert; `failed` is the
catch branch for a thrown insight request. -/
structure QuickRun where
  requests : List Request
  insufficient : Bool
  displayed : Option (List String × List String)
  failed : Bool
deriving DecidableEq

/-- `quickAnalyzeDocument`: extract a sample, gate on the trimmed length
(below 30 characters: alert and return before any request), then issue the
insight request and show the quick-insights modal. -/
def quickAnalyzeDocument (pdfResult : Except Unit PDFDoc)
    (insightResult : Except Unit InsightsResponse) : QuickRun :=
  let sampleText := extractSampleTextFromPDF pdfResult
  if sampleText.isEmpty || (jsTrim sampleText).length < 30 then
    { requests := [], insufficient := true, displayed := none, failed := false }
  else
    match insightResult with
    | .error _ =>
      { requests := [.insight sampleText], insufficient := false
        displayed := none, failed := true }
    | .ok r =>
      { requests := [.insight sampleText], insufficient := false
        displayed := some (showQuickInsights r), failed := false }

/-- The two backend responses a full analysis may consume. -/
structure FullBackend where
  insightResult : Except Unit InsightsResponse
  relatedResult : Except Unit (List RelatedSection)

/-- Trace of one `analyzeDocument` call. -/
structure FullRun where
  requests : List Request
  insufficient : Bool
  displayed : Option DisplayModel
  relatedDisplayed : Option RelatedDisplay
  relatedWarning : Bool
  failed : Bool

/-- The text `analyzeDocument` analyzes: the `specificText` argument when
given and non-empty (falsy check), otherwise a fresh Full-mode extraction. -/
def analyzeText (specificText : Option String)
    (pdfResult : Except Unit PDFDoc) : String :=
  match specificText with
  | none => extractTextFromPDF pdfResult
  | some t => if t.isEmpty then extractTextFromPDF pdfResult else t

/-- `analyzeDocument`: resolve the text to analyze, gate on the trimmed length
(below 50 characters: alert and return before any request), issue the insight
request, display its result, and only then run `showRelatedSections` on the
same text; a related failure only sets the warning, the displayed insights
stay. -/
def analyzeDocument (specificText : Option String)
    (pdfResult : Except Unit PDFDoc) (backend : FullBackend)
    (fmt : Float → String) : FullRun :=
  let textToAnalyze := analyzeText specificText pdfResult
  if textToAnalyze.isEmpty || (jsTrim textToAnalyze).length < 50 then
    { requests := [], insufficient := true, displayed := none
      relatedDisplayed := none, relatedWarning := false, failed := false }
  else
    match backend.insightResult with
    | .error _ =>
      { requests := [.insight textToAnalyze], insufficient := false
        displayed := none, relatedDisplayed := none
        relatedWarning := false, failed := true }
    | .ok r =>
      let rr := showRelatedSections textToAnalyze backend.relatedResult fmt
      { requests := .insight textToAnalyze :: rr.requests
        insufficient := false
        displayed := some (displayInsights r)
        relatedDisplayed := rr.display
        relatedWarning := rr.warning
        failed := false }

/-- A backend podcast response: both fields optional. -/
structure PodcastResponse where
  script : Option String
  text_content : Option String

/-- The three-way fallback `podcast.script || podcast.text_content || pdfText`
resolving the narration script: first non-empty wins. -/
def resolvePodcastScript (p : PodcastResponse) (pdfText : String) : String :=
  jsOrString p.script (jsOrString p.text_content pdfText)

/-- Trace of one `generatePodcast` call. `script` is the recorded
`currentPodcastText` on success. -/
structure PodcastRun where
  requests : List Request
  noDocument : Bool
  insufficient : Bool
  script : Option String
  failed : Bool

/-- `generatePodcast`: return at once when no document is open; extract in
Full mode, gate on the trimmed length (below 100 characters: alert and return
before any request), issue the podcast request and record the resolved
script. -/
def generatePodcast (currentDocumentId : Option String)
    (pdfResult : Except Unit PDFDoc)
    (podcastResult : Except Unit PodcastResponse) : PodcastRun :=
  match currentDocumentId with
  | none =>
    { requests := [], noDocument := true, insufficient := false
      script := none, failed := false }
  | some _ =>
    let pdfText := extractTextFromPDF pdfResult
    if pdfText.isEmpty || (jsTrim pdfText).length < 100 then
      { requests := [], noDocument := false, insufficient := true
        script := none, failed := false }
    else
      match podcastResult with
      | .error _ =>
        { requests := [.podcast pdfText], noDocument := false
          insufficient := false, script := none, failed := true }
      | .ok p =>
        { requests := [.podcast pdfText], noDocument := false
          insufficient := false
          script := some (resolvePodcastScript p pdfText), failed := false }

/-- The module-level session variables: the currently open document id and the
last generated narration text. -/
structure SessionState where
  currentDocumentId : Option String
  currentPodcastText : Option String
deriving DecidableEq

/-- `viewDocument`: opening a document sets `currentDocumentId` to it. The
source touches no other session variable (`currentPodcastText` is left as it
was; only DOM visibility changes besides). -/
def viewDocument (docId : String) (s : SessionState) : SessionState :=
  { s with currentDocumentId := some docId }

/-- `goBack`: clears `currentDocumentId`; `currentPodcastText` is not
touched. -/
def goBack (s : SessionState) : SessionState :=
  { s with currentDocumentId := none }

/-- `deleteDocument`'s effect on the session variables: the source issues the
DELETE request and refreshes the document listing, but never assigns
`currentDocumentId` or `currentPodcastText`, so the session state is
unchanged. -/
def deleteDocument (s : SessionState) : SessionState :=
  s

/-- The concatenation, in page order, of the given pages' segments. -/
def concatSegments : List (List String) → String
  | [] => ""
  | p :: rest => pageSegment p ++ concatSegments rest

theorem jsSubstringTo_length (s : String) (n : Nat) :
    (jsSubstringTo s n).length = min n s.length := by
  show (s.data.take n).length = min n s.data.length
  exact List.length_take n s.data

theorem jsTrim_length_le (s : String) : (jsTrim s).length ≤ s.length := by
  show (((s.data.dropWhile Char.isWhitespace).reverse.dropWhile
      Char.isWhitespace).reverse).length ≤ s.data.length
  calc (((s.data.dropWhile Char.isWhitespace).reverse.dropWhile
          Char.isWhitespace).reverse).length
      = ((s.data.dropWhile Char.isWhitespace).reverse.dropWhile
          Char.isWhitespace).length := List.length_reverse _
    _ ≤ (s.data.dropWhile Char.isWhitespace).reverse.length :=
        (List.dropWhile_sublist _).length_le
    _ = (s.data.dropWhile Char.isWhitespace).length := List.length_reverse _
    _ ≤ s.data.length := (List.dropWhile_sublist _).length_le

theorem isEmpty_eq_false_of_length_pos (s : String) (h : 0 < s.length) :
    s.isEmpty = false := by
  cases he : s.isEmpty
  · rfl
  · have hs : s = "" := (String.isEmpty_iff s).mp he
    subst hs
    exact absurd h (by decide)

/-- The threshold gate of the three drivers evaluates to false whenever the
trimmed text reaches the (positive) threshold. -/
theorem gate_eq_false {s : String} {n : Nat} (hn : 0 < n)
    (h : n ≤ (jsTrim s).length) :
    (s.isEmpty || decide ((jsTrim s).length < n)) = false := by
  have hpos : 0 < s.length :=
    lt_of_lt_of_le (lt_of_lt_of_le hn h) (jsTrim_length_le s)
  rw [isEmpty_eq_false_of_length_pos s hpos, Bool.false_or,
    decide_eq_false (not_lt.mpr h)]

/-- Crossing the 1000-character threshold on a page append truncates to the
first 1000 characters, appends the ellipsis, and stops: the result does not
depend on the remaining pages. -/
theorem sampleLoop_truncate_step (p : List String) (rest : List (List String))
    (acc : String) (n : Nat) (h : (acc ++ pageSegment p).length > 1000) :
    sampleLoop (p :: rest) acc n
      = (jsSubstringTo (acc ++ pageSegment p) 1000 ++ "...", n + 1, true) := by
  simp only [sampleLoop]
  rw [if_pos h]

theorem sampleLoop_length_le (pages : List (List String)) (acc : String) (n : Nat)
    (hacc : acc.length ≤ 1000) : ((sampleLoop pages acc n).1).length ≤ 1003 := by
  induction pages generalizing acc n with
  | nil => exact le_trans hacc (by norm_num)
  | cons p rest ih =>
    simp only [sampleLoop]
    by_cases h : (acc ++ pageSegment p).length > 1000
    · rw [if_pos h]
      show (jsSubstringTo (acc ++ pageSegment p) 1000 ++ "...").length ≤ 1003
      rw [String.length_append, jsSubstringTo_length,
        min_eq_left (le_of_lt h)]
      decide
    · rw [if_neg h]
      exact ih _ _ (not_lt.mp h)

theorem sampleLoop_pages_le (pages : List (List String)) (acc : String) (n : Nat) :
    (sampleLoop pages acc n).2.1 ≤ n + pages.length := by
  induction pages generalizing acc n with
  | nil => simp [sampleLoop]
  | cons p rest ih =>
    simp only [sampleLoop, List.length_cons]
    by_cases h : (acc ++ pageSegment p).length > 1000
    · rw [if_pos h]
      show n + 1 ≤ n + (rest.length + 1)
      omega
    · rw [if_neg h]
      have := ih (acc ++ pageSegment p) (n + 1)
      omega

/-- When the sample loop never truncates, its text is the in-order
concatenation of all its pages' segments. -/
theorem sampleLoop_no_trunc (pages : List (List String)) (acc : String) (n : Nat)
    (h : (sampleLoop pages acc n).2.2 = false) :
    (sampleLoop pages acc n).1 = acc ++ concatSegments pages := by
  induction pages generalizing acc n with
  | nil =>
    show acc = acc ++ concatSegments []
    rw [show concatSegments [] = "" from rfl, String.append_empty]
  | cons p rest ih =>
    simp only [sampleLoop] at h ⊢
    by_cases hc : (acc ++ pageSegment p).length > 1000
    · rw [if_pos hc] at h
      exact absurd h (by simp)
    · rw [if_neg hc] at h ⊢
      rw [ih _ _ h, concatSegments, String.append_assoc]

/-- The full loop reads every page it is given, in order, and its text is the
in-order concatenation of their segments (no character-count truncation). -/
theorem fullLoop_eq (pages : List (List String)) (acc : String) (n : Nat) :
    fullLoop pages acc n = (acc ++ concatSegments pages, n + pages.length) := by
  induction pages generalizing acc n with
  | nil =>
    show (acc, n) = (acc ++ concatSegments [], n + 0)
    rw [show concatSegments [] = "" from rfl, String.append_empty, Nat.add_zero]
  | cons p rest ih =>
    simp only [fullLoop, List.length_cons]
    rw [ih, concatSegments, String.append_assoc]
    congr 1
    omega

/-- C6: Text extraction never raises to its caller: both extraction functions
are total (they return a String for every document-source outcome, so the
orchestrator never sees null), and on a failed open/read each returns its
fixed non-empty placeholder sentence. -/
theorem c6_extraction_fallback :
    extractSampleTextFromPDF (.error ())
      = "Document content analysis for quick insights." ∧
    extractTextFromPDF (.error ())
      = "Document content analysis. This PDF contains valuable information for review." ∧
    (extractSampleTextFromPDF (.error ())).isEmpty = false ∧
    (extractTextFromPDF (.error ())).isEmpty = false := by
  refine ⟨rfl, rfl, ?_, ?_⟩ <;> decide

/-- C8 counterexample: at the concrete session state with narration "x"
recorded, opening document "d" leaves the narration in place instead of
clearing it, and deleting a document leaves the whole session state
unchanged rather than resetting it to empty. -/
theorem c8_open_does_not_clear_podcast :
    (viewDocument "d"
        { currentDocumentId := none, currentPodcastText := some "x" }).currentPodcastText
      = some "x" ∧
    (viewDocument "d"
        { currentDocumentId := none, currentPodcastText := some "x" }).currentPodcastText
      ≠ none ∧
    deleteDocument { currentDocumentId := some "d", currentPodcastText := some "x" }
      ≠ { currentDocumentId := none, currentPodcastText := none } ∧
    (goBack (SessionState.mk (some "d") (some "x"))).currentPodcastText ≠ none := by
  refine ⟨rfl, ?_, ?_, ?_⟩ <;> decide

/-- C8 (amended): opening a document sets the session's openDocumentId to
that id and leaves lastPodcastText unchanged; going back clears
openDocumentId only; document deletion leaves the session state unchanged;
the session holds at most one open document (a single optional id). -/
theorem c8_session_ops (docId : String) (s : SessionState) :
    (viewDocument docId s).currentDocumentId = some docId ∧
    (viewDocument docId s).currentPodcastText = s.currentPodcastText ∧
    (goBack s).currentDocumentId = none ∧
    (goBack s).currentPodcastText = s.currentPodcastText ∧
    deleteDocument s = s :=
  ⟨rfl, rfl, rfl, rfl, rfl⟩

/-- C9: every related-section card's preview is the section text cut to its
first 100 characters (at most) followed by the ellipsis marker, whatever the
text's length; a missing page renders as "N/A" and a missing score as
"0.00". The render function is total, so a missing field never throws. -/
theorem c9_related_render (fmt : Float → String) (s : RelatedSection) :
    (renderRelatedSection fmt s).preview = jsSubstringTo s.text 100 ++ "..." ∧
    (renderRelatedSection fmt s).preview.length ≤ 100 + "...".length ∧
    (s.page = none → (renderRelatedSection fmt s).pageLabel = "N/A") ∧
    (s.score = none → (renderRelatedSection fmt s).scoreLabel = "0.00") := by
  refine ⟨rfl, ?_, ?_, ?_⟩
  · show (jsSubstringTo s.text 100 ++ "...").length ≤ 100 + "...".length
    rw [String.length_append, jsSubstringTo_length]
    have : min 100 s.text.length ≤ 100 := min_le_left _ _
    omega
  · intro h
    simp [renderRelatedSection, h]
  · intro h
    simp [renderRelatedSection, h]

/-- C9 witness: a concrete 150-character section with page and score absent
renders as its first 100 characters plus "...", page "N/A", score "0.00". -/
theorem c9_related_render_witness :
    (renderRelatedSection (fun _ => "9.99")
        (RelatedSection.mk (String.mk (List.replicate 150 'a')) none none)).preview
      = jsSubstringTo (String.mk (List.replicate 150 'a')) 100 ++ "..." ∧
    (renderRelatedSection (fun _ => "9.99")
        (RelatedSection.mk (String.mk (List.replicate 150 'a')) none none)).pageLabel
      = "N/A" ∧
    (renderRelatedSection (fun _ => "9.99")
        (RelatedSection.mk (String.mk (List.replicate 150 'a')) none none)).scoreLabel
      = "0.00" := by
  have h := c9_related_render (fun _ => "9.99")
    (RelatedSection.mk (String.mk (List.replicate 150 'a')) none none)
  exact ⟨h.1, h.2.2.1 rfl, h.2.2.2 rfl⟩

/-- C5 counterexample: for the response whose insights object itself is
absent, the rendered display model is the "No insights generated" message,
which does not carry the four InsightBundle fields at all. -/
theorem c5_missing_object_counterexample :
    displayInsights { insights := none } = DisplayModel.noInsights ∧
    (displayInsights { insights := none }).hasBundle = false := by
  exact ⟨rfl, rfl⟩

/-- C5 (amended): for every insights response whose insights object is
present, the rendered display model contains all four InsightBundle fields;
any field the response omits or nulls is rendered as its fixed one-element
placeholder sequence, and every field the response provides is rendered with
its values unchanged. A response lacking the insights object entirely
renders the no-insights message instead. -/
theorem c5_field_fallback (obj : InsightsObj) :
    displayInsights { insights := none } = DisplayModel.noInsights ∧
    (displayInsights { insights := some obj }).hasBundle = true ∧
    ∀ d, displayInsights { insights := some obj } = .bundle d →
      (obj.key_insights = none → d.keyInsights = ["No key insights available"]) ∧
      (∀ l, obj.key_insights = some l → d.keyInsights = l) ∧
      (obj.did_you_know = none → d.didYouKnow = ["No additional facts available"]) ∧
      (∀ l, obj.did_you_know = some l → d.didYouKnow = l) ∧
      (obj.counterpoints = none → d.counterpoints = ["No counterpoints available"]) ∧
      (∀ l, obj.counterpoints = some l → d.counterpoints = l) ∧
      (obj.connections = none → d.connections = ["No connections available"]) ∧
      (∀ l, obj.connections = some l → d.connections = l) := by
  refine ⟨rfl, rfl, fun d hd => ?_⟩
  have hd' : d
      = { keyInsights := jsOrList obj.key_insights ["No key insights available"]
          didYouKnow := jsOrList obj.did_you_know ["No additional facts available"]
          counterpoints := jsOrList obj.counterpoints ["No counterpoints available"]
          connections := jsOrList obj.connections ["No connections available"] } := by
    have := hd.symm.trans (rfl : displayInsights { insights := some obj } = _)
    cases hd
    rfl
  subst hd'
  refine ⟨fun h => ?_, fun l h => ?_, fun h => ?_, fun l h => ?_,
    fun h => ?_, fun l h => ?_, fun h => ?_, fun l h => ?_⟩ <;>
    simp [jsOrList, h]

/-- C5 witness: for a concrete response providing three fields and omitting
connections, the display carries the bundle, the three provided fields are
unchanged and connections is the placeholder. -/
theorem c5_field_fallback_witness :
    (displayInsights { insights := some (InsightsObj.mk (some ["k1"])
        (some ["d1"]) (some ["c1"]) none) }).hasBundle = true ∧
    (InsightDisplay.mk ["k1"] ["d1"] ["c1"]
        ["No connections available"]).keyInsights = ["k1"] ∧
    (InsightDisplay.mk ["k1"] ["d1"] ["c1"]
        ["No connections available"]).connections
      = ["No connections available"] := by
  have h := c5_field_fallback
    (InsightsObj.mk (some ["k1"]) (some ["d1"]) (some ["c1"]) none)
  have hd := h.2.2 (InsightDisplay.mk ["k1"] ["d1"] ["c1"]
    ["No connections available"]) rfl
  exact ⟨h.2.1, hd.2.1 ["k1"] rfl, hd.2.2.2.2.2.2.1 rfl⟩

/-- C7: the narration script resolves through the three-way fallback
script, then text_content, then the extracted text, first non-empty wins;
and a successful podcast request records exactly this resolution as the
session's narration. -/
theorem c7_podcast_script (p : PodcastResponse) (t : String) :
    (∀ a, p.script = some a → a.isEmpty = false → resolvePodcastScript p t = a) ∧
    ((p.script = none ∨ p.script = some "") →
      ∀ b, p.text_content = some b → b.isEmpty = false →
        resolvePodcastScript p t = b) ∧
    ((p.script = none ∨ p.script = some "") →
      (p.text_content = none ∨ p.text_content = some "") →
      resolvePodcastScript p t = t) ∧
    (∀ docId pdfR, (generatePodcast (some docId) pdfR (.ok p)).insufficient = false →
      (generatePodcast (some docId) pdfR (.ok p)).script
        = some (resolvePodcastScript p (extractTextFromPDF pdfR))) := by
  refine ⟨?_, ?_, ?_, ?_⟩
  · intro a ha hne
    simp [resolvePodcastScript, jsOrString, ha, hne]
  · intro hs b hb hbne
    have hemp : "".isEmpty = true := rfl
    rcases hs with hs | hs <;>
      simp [resolvePodcastScript, jsOrString, hs, hb, hbne, hemp]
  · intro hs ht
    have hemp : "".isEmpty = true := rfl
    rcases hs with hs | hs <;> rcases ht with ht | ht <;>
      simp [resolvePodcastScript, jsOrString, hs, ht, hemp]
  · intro docId pdfR h
    by_cases hc : ((extractTextFromPDF pdfR).isEmpty
        || decide ((jsTrim (extractTextFromPDF pdfR)).length < 100)) = true
    · exfalso
      simp only [generatePodcast, if_pos hc] at h
      exact absurd h (by decide)
    · have hc' : ¬ ((extractTextFromPDF pdfR).isEmpty = true
          ∨ (jsTrim (extractTextFromPDF pdfR)).length < 100) := by
        simpa using hc
      simp only [generatePodcast, if_neg hc]

/-- C7 witness: a response with script "A" resolves to "A"; text_content "B"
alone resolves to "B"; neither present resolves to the extracted text. -/
theorem c7_podcast_script_witness :
    resolvePodcastScript (PodcastResponse.mk (some "A") none) "orig" = "A" ∧
    resolvePodcastScript (PodcastResponse.mk none (some "B")) "orig" = "B" ∧
    resolvePodcastScript (PodcastResponse.mk none none) "orig" = "orig" :=
  ⟨(c7_podcast_script (PodcastResponse.mk (some "A") none) "orig").1 "A" rfl rfl,
   (c7_podcast_script (PodcastResponse.mk none (some "B")) "orig").2.1
     (Or.inl rfl) "B" rfl rfl,
   (c7_podcast_script (PodcastResponse.mk none none) "orig").2.2.1
     (Or.inl rfl) (Or.inl rfl)⟩

/-- A text whose trimmed form reaches a positive threshold is itself
non-empty. -/
theorem length_pos_of_trim_ge {s : String} {n : Nat} (hn : 0 < n)
    (h : n ≤ (jsTrim s).length) : 0 < s.length :=
  lt_of_lt_of_le (lt_of_lt_of_le hn h) (jsTrim_length_le s)

/-- Below its 30-character threshold, the quick driver fails with an empty
request trace. -/
theorem quickGate_lt (pdfS : Except Unit PDFDoc)
    (ib : Except Unit InsightsResponse)
    (h : (jsTrim (extractSampleTextFromPDF pdfS)).length < 30) :
    (quickAnalyzeDocument pdfS ib).requests = [] ∧
    (quickAnalyzeDocument pdfS ib).insufficient = true := by
  simp [quickAnalyzeDocument, h]

/-- At or above its 30-character threshold, the quick driver issues exactly
the insight request with the sample text as payload. -/
theorem quickGate_ge (pdfS : Except Unit PDFDoc)
    (ib : Except Unit InsightsResponse)
    (h : 30 ≤ (jsTrim (extractSampleTextFromPDF pdfS)).length) :
    (quickAnalyzeDocument pdfS ib).requests
      = [.insight (extractSampleTextFromPDF pdfS)] ∧
    (quickAnalyzeDocument pdfS ib).insufficient = false := by
  have he := isEmpty_eq_false_of_length_pos _
    (length_pos_of_trim_ge (by norm_num) h)
  cases ib with
  | error e => simp [quickAnalyzeDocument, he, not_lt.mpr h]
  | ok r => simp [quickAnalyzeDocument, he, not_lt.mpr h]

/-- Below its 50-character threshold, the full driver fails with an empty
request trace. -/
theorem fullGate_lt (pdfF : Except Unit PDFDoc) (fb : FullBackend)
    (fmt : Float → String)
    (h : (jsTrim (analyzeText none pdfF)).length < 50) :
    (analyzeDocument none pdfF fb fmt).requests = [] ∧
    (analyzeDocument none pdfF fb fmt).insufficient = true := by
  simp [analyzeDocument, h]

/-- At or above its 50-character threshold, the full driver issues the
insight request with the analyzed text as payload. -/
theorem fullGate_ge (pdfF : Except Unit PDFDoc) (fb : FullBackend)
    (fmt : Float → String)
    (h : 50 ≤ (jsTrim (analyzeText none pdfF)).length) :
    Request.insight (analyzeText none pdfF)
      ∈ (analyzeDocument none pdfF fb fmt).requests ∧
    (analyzeDocument none pdfF fb fmt).insufficient = false := by
  have he := isEmpty_eq_false_of_length_pos _
    (length_pos_of_trim_ge (by norm_num) h)
  cases hfi : fb.insightResult with
  | error e => simp [analyzeDocument, he, not_lt.mpr h, hfi]
  | ok r => simp [analyzeDocument, he, not_lt.mpr h, hfi]

/-- Below its 100-character threshold, the podcast driver fails with an
empty request trace. -/
theorem podcastGate_lt (pdfF : Except Unit PDFDoc)
    (pb : Except Unit PodcastResponse) (docId : String)
    (h : (jsTrim (extractTextFromPDF pdfF)).length < 100) :
    (generatePodcast (some docId) pdfF pb).requests = [] ∧
    (generatePodcast (some docId) pdfF pb).insufficient = true := by
  simp [generatePodcast, h]

/-- At or above its 100-character threshold, the podcast driver issues
exactly the podcast request with the extracted text as payload. -/
theorem podcastGate_ge (pdfF : Except Unit PDFDoc)
    (pb : Except Unit PodcastResponse) (docId : String)
    (h : 100 ≤ (jsTrim (extractTextFromPDF pdfF)).length) :
    (generatePodcast (some docId) pdfF pb).requests
      = [.podcast (extractTextFromPDF pdfF)] ∧
    (generatePodcast (some docId) pdfF pb).insufficient = false := by
  have he := isEmpty_eq_false_of_length_pos _
    (length_pos_of_trim_ge (by norm_num) h)
  cases pb with
  | error e => simp [generatePodcast, he, not_lt.mpr h]
  | ok r => simp [generatePodcast, he, not_lt.mpr h]

/-- C1: each driver applies its inclusive threshold on the trimmed extracted
text: below 30 (quick), 50 (full) or 100 (podcast) characters the call
returns the insufficient-text failure with an empty request trace (no
backend request sent); at or above the threshold, the request is issued with
the extracted text as payload. -/
theorem c1_length_thresholds (pdfS pdfF : Except Unit PDFDoc)
    (ib : Except Unit InsightsResponse) (fb : FullBackend)
    (pb : Except Unit PodcastResponse) (docId : String) (fmt : Float → String) :
    ((jsTrim (extractSampleTextFromPDF pdfS)).length < 30 →
      (quickAnalyzeDocument pdfS ib).requests = [] ∧
      (quickAnalyzeDocument pdfS ib).insufficient = true) ∧
    (30 ≤ (jsTrim (extractSampleTextFromPDF pdfS)).length →
      (quickAnalyzeDocument pdfS ib).requests
        = [.insight (extractSampleTextFromPDF pdfS)] ∧
      (quickAnalyzeDocument pdfS ib).insufficient = false) ∧
    ((jsTrim (analyzeText none pdfF)).length < 50 →
      (analyzeDocument none pdfF fb fmt).requests = [] ∧
      (analyzeDocument none pdfF fb fmt).insufficient = true) ∧
    (50 ≤ (jsTrim (analyzeText none pdfF)).length →
      Request.insight (analyzeText none pdfF)
        ∈ (analyzeDocument none pdfF fb fmt).requests ∧
      (analyzeDocument none pdfF fb fmt).insufficient = false) ∧
    ((jsTrim (extractTextFromPDF pdfF)).length < 100 →
      (generatePodcast (some docId) pdfF pb).requests = [] ∧
      (generatePodcast (some docId) pdfF pb).insufficient = true) ∧
    (100 ≤ (jsTrim (extractTextFromPDF pdfF)).length →
      (generatePodcast (some docId) pdfF pb).requests
        = [.podcast (extractTextFromPDF pdfF)] ∧
      (generatePodcast (some docId) pdfF pb).insufficient = false) :=
  ⟨quickGate_lt pdfS ib, quickGate_ge pdfS ib, fullGate_lt pdfF fb fmt,
   fullGate_ge pdfF fb fmt, podcastGate_lt pdfF pb docId,
   podcastGate_ge pdfF pb docId⟩

/-- C1 witness: on a one-page document reading "hi" every driver fails the
gate with no request; on an extraction failure the quick and full drivers
proceed (their fallback sentences pass 30 and 50), and on a 120-character
document the podcast driver issues its request. -/
theorem c1_length_thresholds_witness :
    (quickAnalyzeDocument (.ok (PDFDoc.mk [["hi"]]))
      (.ok { insights := none })).requests = [] ∧
    (quickAnalyzeDocument (.error ()) (.ok { insights := none })).requests
      = [.insight (extractSampleTextFromPDF (.error ()))] ∧
    (analyzeDocument none (.ok (PDFDoc.mk [["hi"]]))
      (FullBackend.mk (.ok { insights := none }) (.ok []))
      (fun _ => "")).requests = [] ∧
    Request.insight (analyzeText none (.error ()))
      ∈ (analyzeDocument none (.error ())
          (FullBackend.mk (.ok { insights := none }) (.ok []))
          (fun _ => "")).requests ∧
    (generatePodcast (some "doc") (.ok (PDFDoc.mk [["hi"]]))
      (.ok (PodcastResponse.mk none none))).requests = [] ∧
    (generatePodcast (some "doc")
      (.ok (PDFDoc.mk [[String.mk (List.replicate 120 'b')]]))
      (.ok (PodcastResponse.mk none none))).requests
      = [.podcast (extractTextFromPDF
          (.ok (PDFDoc.mk [[String.mk (List.replicate 120 'b')]])))] :=
  ⟨((c1_length_thresholds (.ok (PDFDoc.mk [["hi"]])) (.error ())
      (.ok { insights := none }) (FullBackend.mk (.ok { insights := none }) (.ok []))
      (.ok (PodcastResponse.mk none none)) "doc" (fun _ => "")).1 (by decide)).1,
   ((c1_length_thresholds (.error ()) (.error ())
      (.ok { insights := none }) (FullBackend.mk (.ok { insights := none }) (.ok []))
      (.ok (PodcastResponse.mk none none)) "doc" (fun _ => "")).2.1 (by decide)).1,
   ((c1_length_thresholds (.error ()) (.ok (PDFDoc.mk [["hi"]]))
      (.ok { insights := none }) (FullBackend.mk (.ok { insights := none }) (.ok []))
      (.ok (PodcastResponse.mk none none)) "doc" (fun _ => "")).2.2.1 (by decide)).1,
   ((c1_length_thresholds (.error ()) (.error ())
      (.ok { insights := none }) (FullBackend.mk (.ok { insights := none }) (.ok []))
      (.ok (PodcastResponse.mk none none)) "doc" (fun _ => "")).2.2.2.1 (by decide)).1,
   ((c1_length_thresholds (.error ()) (.ok (PDFDoc.mk [["hi"]]))
      (.ok { insights := none }) (FullBackend.mk (.ok { insights := none }) (.ok []))
      (.ok (PodcastResponse.mk none none)) "doc" (fun _ => "")).2.2.2.2.1 (by decide)).1,
   ((c1_length_thresholds (.error ())
      (.ok (PDFDoc.mk [[String.mk (List.replicate 120 'b')]]))
      (.ok { insights := none }) (FullBackend.mk (.ok { insights := none }) (.ok []))
      (.ok (PodcastResponse.mk none none)) "doc" (fun _ => "")).2.2.2.2.2 (by decide)).1⟩

/-- C2: crossing the 1000-character bound after a page append truncates the
accumulator to exactly its first 1000 characters, appends "...", and stops
reading (the loop result is the same whatever pages remain, with the page
counter stopped at this page); consequently the Sample-mode output never
exceeds 1000 plus the length of the ellipsis marker. -/
theorem c2_sample_truncation (pdfResult : Except Unit PDFDoc)
    (p : List String) (rest : List (List String)) (acc : String) (n : Nat) :
    (extractSampleTextFromPDF pdfResult).length ≤ 1000 + "...".length ∧
    ((acc ++ pageSegment p).length > 1000 →
      sampleLoop (p :: rest) acc n
        = (jsSubstringTo (acc ++ pageSegment p) 1000 ++ "...", n + 1, true) ∧
      (jsSubstringTo (acc ++ pageSegment p) 1000).length = 1000) := by
  constructor
  · cases pdfResult with
    | error e =>
      cases e
      decide
    | ok pdf =>
      show (jsTrim (extractSampleRun pdf).1).length ≤ 1000 + "...".length
      calc (jsTrim (extractSampleRun pdf).1).length
          ≤ (extractSampleRun pdf).1.length := jsTrim_length_le _
        _ ≤ 1003 := sampleLoop_length_le _ _ _ (by decide)
        _ ≤ 1000 + "...".length := by decide
  · intro h
    refine ⟨sampleLoop_truncate_step p rest acc n h, ?_⟩
    rw [jsSubstringTo_length]
    exact min_eq_left (le_of_lt h)

set_option maxRecDepth 8192 in
/-- C2 witness: a 999-character first page (segment length 1001) triggers the
truncation: the loop stops after page one with the first 1000 characters plus
the ellipsis, ignoring the remaining page. -/
theorem c2_sample_truncation_witness :
    ("" ++ pageSegment [String.mk (List.replicate 999 'a')]).length > 1000 ∧
    sampleLoop [[String.mk (List.replicate 999 'a')], ["next page"]] "" 0
      = (jsSubstringTo ("" ++ pageSegment [String.mk (List.replicate 999 'a')])
          1000 ++ "...", 1, true) ∧
    (jsSubstringTo ("" ++ pageSegment [String.mk (List.replicate 999 'a')])
      1000).length = 1000 :=
  ⟨by decide,
   (c2_sample_truncation (.error ()) [String.mk (List.replicate 999 'a')]
     [["next page"]] "" 0).2 (by decide)⟩

/-- C3: Sample-mode extraction reads at most min(pageCount, 3) pages and
Full-mode exactly min(pageCount, 10); both iterate pages in ascending order
joining each page's fragments with a single space and appending a blank-line
separator per page (the closed forms over concatSegments), and Full mode's
text is the whole concatenation of its capped page range — no
character-count truncation. -/
theorem c3_page_caps (pdf : PDFDoc) :
    (extractSampleRun pdf).2.1 ≤ min pdf.pages.length 3 ∧
    ((extractSampleRun pdf).2.2 = false →
      (extractSampleRun pdf).1
        = concatSegments (pdf.pages.take (min pdf.pages.length 3))) ∧
    (extractFullRun pdf).2 = min pdf.pages.length 10 ∧
    extractTextFromPDF (.ok pdf)
      = jsTrim (concatSegments (pdf.pages.take (min pdf.pages.length 10))) := by
  refine ⟨?_, ?_, ?_, ?_⟩
  · have h := sampleLoop_pages_le (pdf.pages.take (min pdf.pages.length 3)) "" 0
    rw [List.length_take] at h
    have h' : (extractSampleRun pdf).2.1
        ≤ 0 + min (min pdf.pages.length 3) pdf.pages.length := h
    omega
  · intro h
    have hh := sampleLoop_no_trunc (pdf.pages.take (min pdf.pages.length 3)) "" 0 h
    show (sampleLoop (pdf.pages.take (min pdf.pages.length 3)) "" 0).1 = _
    rw [hh, String.empty_append]
  · show (fullLoop (pdf.pages.take (min pdf.pages.length 10)) "" 0).2
        = min pdf.pages.length 10
    simp only [fullLoop_eq, List.length_take]
    omega
  · show jsTrim (fullLoop (pdf.pages.take (min pdf.pages.length 10)) "" 0).1
        = jsTrim (concatSegments (pdf.pages.take (min pdf.pages.length 10)))
    simp only [fullLoop_eq, String.empty_append]

/-- C3 witness: a concrete two-page document is read without truncation and
its sample text is the in-order concatenation of both pages' segments. -/
theorem c3_page_caps_witness :
    (extractSampleRun (PDFDoc.mk [["hello", "world"], ["page", "two"]])).2.2
      = false ∧
    (extractSampleRun (PDFDoc.mk [["hello", "world"], ["page", "two"]])).1
      = concatSegments ((PDFDoc.mk [["hello", "world"], ["page", "two"]]).pages.take
          (min (PDFDoc.mk [["hello", "world"], ["page", "two"]]).pages.length 3)) :=
  ⟨by decide,
   (c3_page_caps (PDFDoc.mk [["hello", "world"], ["page", "two"]])).2.1 (by decide)⟩

/-- C4: the related-sections request appears in a full-analysis trace only
when the insight request succeeded, always with the same analyzed text and
the fixed result count 5; and when the related request fails after a
successful insight request, the run only raises the partial-result warning —
the insight display is still delivered and the operation does not fail. -/
theorem c4_dependent_related (specificText : Option String)
    (pdfResult : Except Unit PDFDoc) (backend : FullBackend)
    (fmt : Float → String) :
    (∀ t k, Request.related t k
        ∈ (analyzeDocument specificText pdfResult backend fmt).requests →
      (∃ r, backend.insightResult = .ok r) ∧
      t = analyzeText specificText pdfResult ∧ k = 5) ∧
    (∀ r, backend.insightResult = .ok r →
      backend.relatedResult = .error () →
      (analyzeDocument specificText pdfResult backend fmt).insufficient = false →
      (analyzeDocument specificText pdfResult backend fmt).relatedWarning = true ∧
      (analyzeDocument specificText pdfResult backend fmt).displayed
        = some (displayInsights r) ∧
      (analyzeDocument specificText pdfResult backend fmt).failed = false) := by
  by_cases hg : ((analyzeText specificText pdfResult).isEmpty = true
      ∨ (jsTrim (analyzeText specificText pdfResult)).length < 50)
  · constructor
    · intro t k hmem
      simp [analyzeDocument, hg] at hmem
    · intro r hi hr hins
      exfalso
      simp [analyzeDocument, hg] at hins
  · have hne : (analyzeText specificText pdfResult).isEmpty = false := by
      cases hb : (analyzeText specificText pdfResult).isEmpty
      · rfl
      · exact absurd (Or.inl hb) hg
    have hlen : ¬ ((jsTrim (analyzeText specificText pdfResult)).length < 50) :=
      fun hc => hg (Or.inr hc)
    constructor
    · intro t k hmem
      cases hi : backend.insightResult with
      | error e =>
        simp [analyzeDocument, hne, hlen, hi] at hmem
      | ok r =>
        cases hr : backend.relatedResult with
        | error e =>
          simp [analyzeDocument, hne, hlen, hi, hr, showRelatedSections] at hmem
          exact ⟨⟨r, rfl⟩, hmem.1, hmem.2⟩
        | ok secs =>
          simp [analyzeDocument, hne, hlen, hi, hr, showRelatedSections] at hmem
          exact ⟨⟨r, rfl⟩, hmem.1, hmem.2⟩
    · intro r hi hr hins
      simp [analyzeDocument, hne, hlen, hi, hr, showRelatedSections]

/-- C4 witness: with a 60-character specific text, a successful insight
response and a failing related request, the related request was issued for
exactly that text with k = 5, the warning is raised, the insight display is
delivered, and the operation does not fail. -/
theorem c4_dependent_related_witness :
    (analyzeDocument (some (String.mk (List.replicate 60 't'))) (Except.error ())
        (FullBackend.mk (Except.ok { insights := none }) (Except.error ()))
        (fun _ => "")).relatedWarning = true ∧
    (analyzeDocument (some (String.mk (List.replicate 60 't'))) (Except.error ())
        (FullBackend.mk (Except.ok { insights := none }) (Except.error ()))
        (fun _ => "")).displayed
      = some (displayInsights { insights := none }) ∧
    (analyzeDocument (some (String.mk (List.replicate 60 't'))) (Except.error ())
        (FullBackend.mk (Except.ok { insights := none }) (Except.error ()))
        (fun _ => "")).failed = false ∧
    String.mk (List.replicate 60 't')
      = analyzeText (some (String.mk (List.replicate 60 't'))) (Except.error ()) := by
  have h := (c4_dependent_related (some (String.mk (List.replicate 60 't')))
      (Except.error ())
      (FullBackend.mk (Except.ok { insights := none }) (Except.error ()))
      (fun _ => "")).2 { insights := none } rfl rfl (by decide)
  have h1 := (c4_dependent_related (some (String.mk (List.replicate 60 't')))
      (Except.error ())
      (FullBackend.mk (Except.ok { insights := none }) (Except.error ()))
      (fun _ => "")).1 (String.mk (List.replicate 60 't')) 5 (by decide)
  exact ⟨h.1, h.2.1, h.2.2, h1.2.1⟩

/-- C10: after an extraction failure the three operations diverge on the
fixed fallback sentences: the quick fallback has 45 characters (above 30) and
the full fallback 77 characters (above 50), so quick and full analysis still
contact the backend with the placeholder as payload, while 77 is below the
podcast threshold of 100, so a podcast request is never sent after an
extraction failure. -/
theorem c10_fallback_divergence (ib : Except Unit InsightsResponse)
    (fb : FullBackend) (pb : Except Unit PodcastResponse) (docId : String)
    (fmt : Float → String) :
    (extractSampleTextFromPDF (.error ())).length = 45 ∧
    30 ≤ (jsTrim (extractSampleTextFromPDF (.error ()))).length ∧
    (quickAnalyzeDocument (.error ()) ib).requests
      = [.insight (extractSampleTextFromPDF (.error ()))] ∧
    (extractTextFromPDF (.error ())).length = 77 ∧
    50 ≤ (jsTrim (extractTextFromPDF (.error ()))).length ∧
    Request.insight (analyzeText none (.error ()))
      ∈ (analyzeDocument none (.error ()) fb fmt).requests ∧
    (jsTrim (extractTextFromPDF (.error ()))).length < 100 ∧
    (generatePodcast (some docId) (.error ()) pb).requests = [] ∧
    (generatePodcast (some docId) (.error ()) pb).insufficient = true :=
  ⟨by decide, by decide, (quickGate_ge (.error ()) ib (by decide)).1, by decide,
   by decide, (fullGate_ge (.error ()) fb fmt (by decide)).1, by decide,
   (podcastGate_lt (.error ()) pb docId (by decide)).1,
   (podcastGate_lt (.error ()) pb docId (by decide)).2⟩
